import Mathlib

/-!
Verification of the OVMS Protocol v2 client core
(`custom_components/ovms_hass/coordinator.py`).

The Python classes `RC4` and `OVMSProtocolClient` are shallowly embedded
below: bytes are `Nat` values (reduced mod 256 exactly where the source
reduces), strings are Lean `String`s, the mutable session object becomes an
explicit `SessionState` record threaded through pure step functions, and
`raise` becomes `Except.error`.
-/

namespace OVMS

/-! ## RC4 stream cipher (class `RC4` in coordinator.py) -/

/-- The RC4 cipher state: the 256-entry permutation list `state` and the two
cursors `x`, `y`, exactly the attributes of the Python `RC4` object. -/
structure RC4 where
  state : List Nat
  x : Nat
  y : Nat
deriving Repr, DecidableEq

/-- Simultaneous swap `l[i], l[j] = l[j], l[i]` on a list: both reads happen
on the original list, then both writes. -/
def listSwap (l : List Nat) (i j : Nat) : List Nat :=
  (l.set i (l.getD j 0)).set j (l.getD i 0)

/-- One iteration of the key-scheduling loop in `RC4.__init__`:
`j = (j + state[i] + key[i % len(key)]) % 256` followed by the swap of
`state[i]` and `state[j]`. -/
def ksaStep (key : List Nat) (sj : List Nat × Nat) (i : Nat) : List Nat × Nat :=
  let j := (sj.2 + sj.1.getD i 0 + key.getD (i % key.length) 0) % 256
  (listSwap sj.1 i j, j)

/-- `RC4.__init__`: state starts as `list(range(256))`, `x = y = 0`, then the
key-scheduling loop runs for `i in range(256)`. -/
def RC4.init (key : List Nat) : RC4 :=
  { state := ((List.range 256).foldl (ksaStep key) (List.range 256, 0)).1
    x := 0
    y := 0 }

/-- The per-byte state update and keystream byte of `RC4.crypt`'s loop body
(everything except the final XOR, which involves the data byte). -/
def rc4Next (c : RC4) : RC4 × Nat :=
  let x := (c.x + 1) % 256
  let y := (c.y + c.state.getD x 0) % 256
  let s := listSwap c.state x y
  let k := s.getD ((s.getD x 0 + s.getD y 0) % 256) 0
  (⟨s, x, y⟩, k)

/-- `RC4.crypt`: processes `data` byte by byte, returning the mutated cipher
object together with the output bytes (`byte ^ k` for each input byte). -/
def RC4.crypt (c : RC4) (data : List Nat) : RC4 × List Nat :=
  match data with
  | [] => (c, [])
  | b :: rest =>
    let s := rc4Next c
    let r := RC4.crypt s.1 rest
    (r.1, (b ^^^ s.2) :: r.2)

/-! ## Python string / number helpers used by the client -/

/-- A value stored in the `protocol_data` dictionary of the client
(string, int or bool, the three types the parsers put there). -/
inductive PVal
  | str (s : String)
  | int (n : Int)
  | bool (b : Bool)
deriving Repr, DecidableEq

/-- Python dict assignment `m[k] = v`: replace the value of an existing key
in place, otherwise append the new binding at the end (insertion order). -/
def assocSet (m : List (String × PVal)) (k : String) (v : PVal) :
    List (String × PVal) :=
  if m.any (fun p => p.1 == k) then
    m.map (fun p => if p.1 == k then (p.1, v) else p)
  else m ++ [(k, v)]

/-- Python `dict.update`: assign every binding of `upd` in order. -/
def dictUpdate (m upd : List (String × PVal)) : List (String × PVal) :=
  upd.foldl (fun acc p => assocSet acc p.1 p.2) m

/-- Split a character list at every character satisfying `p`; a separator
between two others yields an empty piece, as Python `str.split(sep)` does. -/
def splitWhen (p : Char → Bool) : List Char → List (List Char)
  | [] => [[]]
  | c :: rest =>
    match splitWhen p rest with
    | w :: ws => if p c then [] :: w :: ws else (c :: w) :: ws
    | [] => [[]]

/-- Python `s.split(",")`: split at every comma, keeping empty pieces
(`"".split(",") == [""]`). -/
def pySplitComma (s : String) : List String :=
  (splitWhen (fun c => c == ',') s.data).map (fun cs => (⟨cs⟩ : String))

/-- Python `str.split()` with no separator: split on whitespace runs,
discarding empty pieces (hence also leading/trailing whitespace). -/
def pySplitWS (s : String) : List String :=
  ((splitWhen Char.isWhitespace s.data).map (fun cs => (⟨cs⟩ : String))).filter
    (fun t => t ≠ "")

/-- Rejoin pieces with commas (the effect of Python's maxsplit keeping the
remainder intact). -/
def joinCommas : List String → String
  | [] => ""
  | [s] => s
  | s :: rest => s ++ "," ++ joinCommas rest

/-- Python `payload.split(",", 2)`: at most one more part than the maxsplit,
the last part keeping any further commas. -/
def splitOnComma2 (payload : String) : List String :=
  match pySplitComma payload with
  | a :: b :: c :: rest => [a, b, joinCommas (c :: rest)]
  | parts => parts

/-- Python `str.isdigit` on ASCII text: nonempty and all characters are
decimal digits (so signed strings like `"-70"` are NOT digit strings). -/
def pyIsDigit (s : String) : Bool :=
  !s.data.isEmpty && s.data.all Char.isDigit

/-- Value of a string of decimal digits (`int(s)` for an `isdigit` string). -/
def digitsVal (cs : List Char) : Nat :=
  cs.foldl (fun n c => 10 * n + (c.toNat - 48)) 0

/-- Strip leading and trailing whitespace from a character list (the
whitespace tolerance of Python `int()` / `float()`). -/
def stripWS (cs : List Char) : List Char :=
  ((cs.dropWhile Char.isWhitespace).reverse.dropWhile Char.isWhitespace).reverse

/-- Magnitude accepted by CPython `float()` restricted to the plain decimal
forms the protocol carries (`digits [. digits]` or `. digits`, no exponent,
no inf/nan), already truncated toward zero as `int(float(s))` does: the
fractional digits are parsed and then discarded. -/
def pyFloatTruncCore (cs : List Char) : Option Nat :=
  let intPart := cs.takeWhile Char.isDigit
  let rest := cs.dropWhile Char.isDigit
  match rest with
  | [] => if intPart.isEmpty then none else some (digitsVal intPart)
  | '.' :: fracRest =>
    let fracPart := fracRest.takeWhile Char.isDigit
    let rest2 := fracRest.dropWhile Char.isDigit
    if rest2.isEmpty ∧ ¬(intPart.isEmpty ∧ fracPart.isEmpty) then
      some (digitsVal intPart)
    else none
  | _ => none

/-- Model of Python `int(float(s))` on the protocol's decimal strings:
optional surrounding whitespace, optional sign, decimal digits with an
optional fractional part; the fraction is truncated toward zero. -/
def pyFloatTrunc (s : String) : Option Int :=
  match stripWS s.data with
  | '+' :: rest => (pyFloatTruncCore rest).map Int.ofNat
  | '-' :: rest => (pyFloatTruncCore rest).map (fun n => -(Int.ofNat n : Int))
  | cs => (pyFloatTruncCore cs).map Int.ofNat

/-- Model of Python `int(s)` on the protocol's fields: optional surrounding
whitespace, optional sign, nonempty run of decimal digits. -/
def pyInt (s : String) : Option Int :=
  let core := fun (cs : List Char) =>
    if cs.isEmpty ∨ ¬cs.all Char.isDigit then none else some (digitsVal cs)
  match stripWS s.data with
  | '+' :: rest => (core rest).map Int.ofNat
  | '-' :: rest => (core rest).map (fun n => -(Int.ofNat n : Int))
  | cs => (core cs).map Int.ofNat

/-! ## MD5 / HMAC-MD5 (the `hashlib.md5` / `hmac` calls in `connect`) -/

/-- Reduction to a 32-bit word. -/
def w32 (n : Nat) : Nat := n % 4294967296

/-- 32-bit left rotation of a word `x < 2^32`: the shifted-out high bits and
the shifted value occupy disjoint bit ranges, so their sum is their `or`. -/
def rotl32 (x n : Nat) : Nat := (x * 2 ^ n) % 4294967296 + x / 2 ^ (32 - n)

/-- 32-bit bitwise complement of a word `x < 2^32`. -/
def not32 (x : Nat) : Nat := 4294967295 - x

/-- The 64 MD5 round constants `K[i] = floor(abs(sin(i+1)) * 2^32)`. -/
def md5K : List Nat :=
  [0xd76aa478, 0xe8c7b756, 0x242070db, 0xc1bdceee,
   0xf57c0faf, 0x4787c62a, 0xa8304613, 0xfd469501,
   0x698098d8, 0x8b44f7af, 0xffff5bb1, 0x895cd7be,
   0x6b901122, 0xfd987193, 0xa679438e, 0x49b40821,
   0xf61e2562, 0xc040b340, 0x265e5a51, 0xe9b6c7aa,
   0xd62f105d, 0x02441453, 0xd8a1e681, 0xe7d3fbc8,
   0x21e1cde6, 0xc33707d6, 0xf4d50d87, 0x455a14ed,
   0xa9e3e905, 0xfcefa3f8, 0x676f02d9, 0x8d2a4c8a,
   0xfffa3942, 0x8771f681, 0x6d9d6122, 0xfde5380c,
   0xa4beea44, 0x4bdecfa9, 0xf6bb4b60, 0xbebfbc70,
   0x289b7ec6, 0xeaa127fa, 0xd4ef3085, 0x04881d05,
   0xd9d4d039, 0xe6db99e5, 0x1fa27cf8, 0xc4ac5665,
   0xf4292244, 0x432aff97, 0xab9423a7, 0xfc93a039,
   0x655b59c3, 0x8f0ccc92, 0xffeff47d, 0x85845dd1,
   0x6fa87e4f, 0xfe2ce6e0, 0xa3014314, 0x4e0811a1,
   0xf7537e82, 0xbd3af235, 0x2ad7d2bb, 0xeb86d391]

/-- The 64 MD5 per-round rotation amounts. -/
def md5S : List Nat :=
  [7, 12, 17, 22, 7, 12, 17, 22, 7, 12, 17, 22, 7, 12, 17, 22,
   5, 9, 14, 20, 5, 9, 14, 20, 5, 9, 14, 20, 5, 9, 14, 20,
   4, 11, 16, 23, 4, 11, 16, 23, 4, 11, 16, 23, 4, 11, 16, 23,
   6, 10, 15, 21, 6, 10, 15, 21, 6, 10, 15, 21, 6, 10, 15, 21]

/-- Little-endian 32-bit word from up to four bytes. -/
def leWord (bs : List Nat) : Nat :=
  match bs with
  | [b0, b1, b2, b3] => b0 + 256 * b1 + 65536 * b2 + 16777216 * b3
  | _ => 0

/-- `count` little-endian bytes of `n`. -/
def leBytes (n count : Nat) : List Nat :=
  (List.range count).map (fun i => n / 256 ^ i % 256)

/-- The MD5 round mixing function for round `i`. -/
def md5F (i b c d : Nat) : Nat :=
  if i < 16 then Nat.lor (Nat.land b c) (Nat.land (not32 b) d)
  else if i < 32 then Nat.lor (Nat.land d b) (Nat.land (not32 d) c)
  else if i < 48 then Nat.xor (Nat.xor b c) d
  else Nat.xor c (Nat.lor b (not32 d))

/-- The MD5 message-word index for round `i`. -/
def md5G (i : Nat) : Nat :=
  if i < 16 then i
  else if i < 32 then (5 * i + 1) % 16
  else if i < 48 then (3 * i + 5) % 16
  else (7 * i) % 16

/-- One MD5 round on the running state `(a, b, c, d)`. -/
def md5Step (M : Nat → Nat) (st : Nat × Nat × Nat × Nat) (i : Nat) :
    Nat × Nat × Nat × Nat :=
  let f := w32 (md5F i st.2.1 st.2.2.1 st.2.2.2 + st.1 + md5K.getD i 0
                + M (md5G i))
  (st.2.2.2, w32 (st.2.1 + rotl32 f (md5S.getD i 0)), st.2.1, st.2.2.1)

/-- Process one 64-byte chunk: 64 rounds, then add the result into the
incoming state, all words mod `2^32`. -/
def md5Chunk (st : Nat × Nat × Nat × Nat) (chunk : List Nat) :
    Nat × Nat × Nat × Nat :=
  let M := fun j => leWord ((chunk.drop (4 * j)).take 4)
  let r := (List.range 64).foldl (md5Step M) st
  (w32 (st.1 + r.1), w32 (st.2.1 + r.2.1),
   w32 (st.2.2.1 + r.2.2.1), w32 (st.2.2.2 + r.2.2.2))

/-- MD5 padding: append `0x80`, zero bytes up to 56 mod 64, then the bit
length as 8 little-endian bytes. -/
def md5Pad (msg : List Nat) : List Nat :=
  msg ++ [0x80] ++ List.replicate ((119 - msg.length % 64) % 64) 0
      ++ leBytes (msg.length * 8 % 2 ^ 64) 8

/-- The 16-byte MD5 digest of a byte string (`hashlib.md5(...).digest()`). -/
def md5 (msg : List Nat) : List Nat :=
  let padded := md5Pad msg
  let cs := (List.range (padded.length / 64)).map
    (fun i => (padded.drop (64 * i)).take 64)
  let st := cs.foldl md5Chunk (0x67452301, 0xefcdab89, 0x98badcfe, 0x10325476)
  leBytes st.1 4 ++ leBytes st.2.1 4 ++ leBytes st.2.2.1 4 ++ leBytes st.2.2.2 4

/-- HMAC-MD5 (`hmac.new(key, msg, hashlib.md5).digest()`): block size 64,
long keys hashed first, inner pad `0x36`, outer pad `0x5c`. -/
def hmacMd5 (key msg : List Nat) : List Nat :=
  let k0 := if 64 < key.length then md5 key else key
  let k := k0 ++ List.replicate (64 - k0.length) 0
  md5 ((k.map (fun b => Nat.xor b 0x5c))
       ++ md5 ((k.map (fun b => Nat.xor b 0x36)) ++ msg))

/-! ## Base64 and UTF-8 codecs (`base64.b64encode/b64decode`, `str.encode`,
`bytes.decode(..., errors="replace")`) -/

/-- Character of the standard base64 alphabet at index `n < 64`. -/
def b64Char (n : Nat) : Char :=
  "ABCDEFGHIJKLMNOPQRSTUVWXYZabcdefghijklmnopqrstuvwxyz0123456789+/".data.getD n 'A'

/-- Base64-encode byte groups of three, padding the final partial group
with `=`. -/
def b64EncodeGroups : List Nat → List Char
  | [] => []
  | [b0] => [b64Char (b0 / 4), b64Char (b0 % 4 * 16), '=', '=']
  | [b0, b1] =>
    [b64Char (b0 / 4), b64Char (b0 % 4 * 16 + b1 / 16), b64Char (b1 % 16 * 4), '=']
  | b0 :: b1 :: b2 :: rest =>
    b64Char (b0 / 4) :: b64Char (b0 % 4 * 16 + b1 / 16)
      :: b64Char (b1 % 16 * 4 + b2 / 64) :: b64Char (b2 % 64)
      :: b64EncodeGroups rest

/-- `base64.b64encode(bs).decode("ascii")`. -/
def b64Encode (bs : List Nat) : String := ⟨b64EncodeGroups bs⟩

/-- Index of a character in the base64 alphabet, `none` for padding and any
other character. -/
def b64CharVal (c : Char) : Option Nat :=
  if 'A' ≤ c ∧ c ≤ 'Z' then some (c.toNat - 65)
  else if 'a' ≤ c ∧ c ≤ 'z' then some (c.toNat - 97 + 26)
  else if '0' ≤ c ∧ c ≤ '9' then some (c.toNat - 48 + 52)
  else if c = '+' then some 62
  else if c = '/' then some 63
  else none

/-- Decode a run of 6-bit values, four at a time, a trailing group of two or
three values giving one or two bytes. -/
def b64DecodeQuads : List Nat → List Nat
  | v0 :: v1 :: v2 :: v3 :: rest =>
    (v0 * 4 + v1 / 16) :: (v1 % 16 * 16 + v2 / 4) :: (v2 % 4 * 64 + v3)
      :: b64DecodeQuads rest
  | [v0, v1] => [v0 * 4 + v1 / 16]
  | [v0, v1, v2] => [v0 * 4 + v1 / 16, v1 % 16 * 16 + v2 / 4]
  | _ => []

/-- `base64.b64decode(s)`: non-alphabet characters (including the `=`
padding) are discarded, then 6-bit groups are packed into bytes. -/
def b64Decode (s : String) : List Nat :=
  b64DecodeQuads (s.data.filterMap b64CharVal)

/-- `s.encode("utf-8")` as a byte list. -/
def utf8Encode (s : String) : List Nat :=
  (s.data.map (fun c =>
    let n := c.toNat
    if n < 0x80 then [n]
    else if n < 0x800 then [0xC0 + n / 64, 0x80 + n % 64]
    else if n < 0x10000 then
      [0xE0 + n / 4096, 0x80 + n / 64 % 64, 0x80 + n % 64]
    else
      [0xF0 + n / 262144, 0x80 + n / 4096 % 64, 0x80 + n / 64 % 64,
       0x80 + n % 64])).flatten

/-- The U+FFFD replacement character. -/
def replChar : Char := Char.ofNat 0xFFFD

/-- One decoding step of UTF-8 with replacement: given a lead byte and the
bytes after it, the decoded character and the number of continuation bytes
consumed beyond the lead.  Well-formed sequences decode to their code point
(overlong encodings, surrogates and leads above `0xF4` rejected); an
invalid or truncated sequence yields the replacement character, consuming
its valid continuation prefix. -/
def utf8Step (b : Nat) (rest : List Nat) : Char × Nat :=
  if b < 0x80 then (Char.ofNat b, 0)
  else if b < 0xC2 then (replChar, 0)
  else if b < 0xE0 then
    match rest with
    | c1 :: _ =>
      if 0x80 ≤ c1 ∧ c1 < 0xC0 then
        (Char.ofNat ((b - 0xC0) * 64 + (c1 - 0x80)), 1)
      else (replChar, 0)
    | [] => (replChar, 0)
  else if b < 0xF0 then
    match rest with
    | c1 :: rest1 =>
      if (if b = 0xE0 then 0xA0 else 0x80) ≤ c1
          ∧ c1 < (if b = 0xED then 0xA0 else 0xC0) then
        match rest1 with
        | c2 :: _ =>
          if 0x80 ≤ c2 ∧ c2 < 0xC0 then
            (Char.ofNat ((b - 0xE0) * 4096 + (c1 - 0x80) * 64 + (c2 - 0x80)), 2)
          else (replChar, 1)
        | [] => (replChar, 1)
      else (replChar, 0)
    | [] => (replChar, 0)
  else if b < 0xF5 then
    match rest with
    | c1 :: rest1 =>
      if (if b = 0xF0 then 0x90 else 0x80) ≤ c1
          ∧ c1 < (if b = 0xF4 then 0x90 else 0xC0) then
        match rest1 with
        | c2 :: rest2 =>
          if 0x80 ≤ c2 ∧ c2 < 0xC0 then
            match rest2 with
            | c3 :: _ =>
              if 0x80 ≤ c3 ∧ c3 < 0xC0 then
                (Char.ofNat ((b - 0xF0) * 262144 + (c1 - 0x80) * 4096
                    + (c2 - 0x80) * 64 + (c3 - 0x80)), 3)
              else (replChar, 2)
            | [] => (replChar, 2)
          else (replChar, 1)
        | [] => (replChar, 1)
      else (replChar, 0)
    | [] => (replChar, 0)
  else (replChar, 0)

/-- Fuel-bounded driver for the UTF-8 decode; the fuel only needs to cover
the number of decoded characters, at most the number of input bytes
(`utf8Step` always consumes the lead byte). -/
def utf8DecodeAux : Nat → List Nat → List Char
  | 0, _ => []
  | _, [] => []
  | fuel + 1, b :: rest =>
    (utf8Step b rest).1 :: utf8DecodeAux fuel (rest.drop (utf8Step b rest).2)

/-- `bytes.decode("utf-8", errors="replace")` as a character list.  None of
the properties proved below depend on the decode of a malformed sequence. -/
def utf8DecodeReplace (l : List Nat) : List Char := utf8DecodeAux l.length l

/-! ## Error taxonomy (classes in api.py, raised by coordinator.py) -/

/-- The repository's protocol-level exception classes: `OVMSConnectionError`,
`OVMSAuthenticationError` and `OVMSAPIError` from `api.py`.  No other
protocol error class exists in the repository. -/
inductive OVMSError
  | connectionError (msg : String)
  | authenticationError (msg : String)
  | apiError (msg : String)
deriving Repr, DecidableEq

/-! ## Message parsers of `OVMSProtocolClient` -/

/-- The structured command response built by `_handle_command_response`:
`code`/`result` are present only when the corresponding field is a digit
string. -/
structure CmdResponse where
  code : Option Nat
  result : Option Nat
  message : String
deriving Repr, DecidableEq

/-- `_handle_command_response`'s parsing of the payload:
`parts = payload.split(",", 2)`, then
`code = int(parts[0]) if len(parts) > 0 and parts[0].isdigit() else None`,
same for `result` with `parts[1]`, and
`message = parts[2] if len(parts) > 2 else ""`.
(`parts.getD i ""` renders the guarded `parts[i]` access.) -/
def handle_command_response (payload : String) : CmdResponse :=
  let parts := splitOnComma2 payload
  { code :=
      if 0 < parts.length ∧ pyIsDigit (parts.getD 0 "") then
        some (digitsVal (parts.getD 0 "").data)
      else none
    result :=
      if 1 < parts.length ∧ pyIsDigit (parts.getD 1 "") then
        some (digitsVal (parts.getD 1 "").data)
      else none
    message := if 2 < parts.length then parts.getD 2 "" else "" }

/-- The `data` dictionary built by `_parse_firmware_message` from the CSV
payload, in Python insertion order.  Each guard
`len(parts) > i and parts[i]` is rendered as `parts.getD i "" ≠ ""`
(an out-of-range index yields `""`, which is falsy).  The signal field goes
through `int(float(parts[2]))` inside `try/except`, modelled by
`pyFloatTrunc`. -/
def firmwareData (payload : String) : List (String × PVal) :=
  let parts := pySplitComma payload
  (if parts.getD 0 "" ≠ "" then [("m_firmware", PVal.str (parts.getD 0 ""))] else [])
  ++ (if parts.getD 1 "" ≠ "" then [("car_vin", PVal.str (parts.getD 1 ""))] else [])
  ++ (match (if parts.getD 2 "" ≠ "" then pyFloatTrunc (parts.getD 2 "") else none) with
      | some n => [("car_gsm_signal", PVal.int n)]
      | none => [])
  ++ (if parts.getD 4 "" ≠ "" then [("car_type", PVal.str (parts.getD 4 ""))] else [])
  ++ (if parts.getD 8 "" ≠ "" then [("m_hardware", PVal.str (parts.getD 8 ""))] else [])
  ++ (if parts.getD 9 "" ≠ "" then [("m_mdm_mode", PVal.str (parts.getD 9 ""))] else [])

/-- `_parse_firmware_message`: merge the extracted fields into
`protocol_data` via `dict.update` when any field was extracted. -/
def parse_firmware_message (payload : String)
    (protocol_data : List (String × PVal)) : List (String × PVal) :=
  let data := firmwareData payload
  if data ≠ [] then dictUpdate protocol_data data else protocol_data

/-- `_parse_environment_message`: split on comma; when field 17 exists and is
nonempty, try `int` on it and store `bool(doors5 & 0x80)` under `"hvac"`;
a parse failure (`ValueError`) is swallowed and nothing changes. -/
def parse_environment_message (payload : String)
    (protocol_data : List (String × PVal)) : List (String × PVal) :=
  let parts := pySplitComma payload
  if 17 < parts.length ∧ parts.getD 17 "" ≠ "" then
    match pyInt (parts.getD 17 "") with
    | some doors5 => assocSet protocol_data "hvac" (PVal.bool (Int.land doors5 128 ≠ 0))
    | none => protocol_data
  else protocol_data

/-- The handshake-response validation inside `connect` (lines 503–514):
split the first line on whitespace; reject unless there are at least 4
parts, `parts[0]` is `"MP-A"` or `"MP-S"`, and `parts[1]` is `"0"`;
otherwise return `(server_token, server_digest) = (parts[2], parts[3])`. -/
def parseHandshakeResponse (first_line : String) :
    Except OVMSError (String × String) :=
  let parts := pySplitWS first_line
  if parts.length < 4 ∨ (parts.getD 0 "" ≠ "MP-A" ∧ parts.getD 0 "" ≠ "MP-S")
      ∨ parts.getD 1 "" ≠ "0" then
    Except.error (OVMSError.connectionError
      ("Invalid server response format: " ++ first_line))
  else
    Except.ok (parts.getD 2 "", parts.getD 3 "")

/-- Python `s.startswith(pre)`. -/
def pyStartsWith (s pre : String) : Bool := pre.data.isPrefixOf s.data

/-! ## Session state of `OVMSProtocolClient` -/

/-- The mutable attributes of an `OVMSProtocolClient` that the claims are
about.  A background task attribute (`_reader_task`, `_ping_task`) is
`none` when the attribute is `None` and `some running` otherwise, with
`running = false` once the task is done; `writer` records whether
`self._writer` is set. -/
structure SessionState where
  connected : Bool
  authenticated : Bool
  writer : Bool
  tx_cipher : Option RC4
  rx_cipher : Option RC4
  reader_task : Option Bool
  ping_task : Option Bool
  command_response : Option CmdResponse
  command_event : Bool
  protocol_data : List (String × PVal)
deriving Repr, DecidableEq

/-- The task shutdown in `disconnect`: a running task is cancelled, awaited
and the attribute set to `None`; an absent or already-done task is left
untouched (the source only assigns `None` inside the
`if task and not task.done()` branch). -/
def cancelTask (t : Option Bool) : Option Bool :=
  match t with
  | some true => none
  | u => u

/-- `disconnect` (lines 570–595): cancel both background tasks, close the
writer (the attribute itself is not reset), clear the connection and
authentication flags, both ciphers, the pending command response and its
event. -/
def disconnect (st : SessionState) : SessionState :=
  { st with
    ping_task := cancelTask st.ping_task
    reader_task := cancelTask st.reader_task
    connected := false
    authenticated := false
    tx_cipher := none
    rx_cipher := none
    command_response := none
    command_event := false }

/-! ## Handshake completion (`connect`, lines 519–553) -/

/-- `base64.b64encode(hmac.new(password, server_token, md5).digest())`, the
digest `connect` expects from the server. -/
def expectedServerDigest (password server_token : String) : String :=
  b64Encode (hmacMd5 (utf8Encode password) (utf8Encode server_token))

/-- Outcome of the post-validation phase of `connect`: the final
authentication flag, the two freshly primed ciphers, and whether the
server-digest mismatch warning was logged. -/
structure HandshakeOutcome where
  authenticated : Bool
  tx_cipher : RC4
  rx_cipher : RC4
  digestWarning : Bool
deriving Repr, DecidableEq

/-- The tail of `connect` after the response-format validation: compare the
server digest against the expected one (logging on mismatch, nothing
else), derive the RC4 key `HMAC-MD5(password, server_token + client_token)`,
build both ciphers from it, prime each with 1024 zero bytes, and mark the
session authenticated. -/
def finishHandshake (password client_token server_token server_digest : String) :
    HandshakeOutcome :=
  let warned := server_digest ≠ expectedServerDigest password server_token
  let crypto_key :=
    hmacMd5 (utf8Encode password) (utf8Encode (server_token ++ client_token))
  { authenticated := true
    tx_cipher := ((RC4.init crypto_key).crypt (List.replicate 1024 0)).1
    rx_cipher := ((RC4.init crypto_key).crypt (List.replicate 1024 0)).1
    digestWarning := warned }

/-! ## Sending commands (`send_command`, `_send_encrypted_message`,
`_encrypt_message`) -/

/-- `_send_encrypted_message` / `_encrypt_message`: check the connection and
the TX cipher, encrypt the UTF-8 bytes of the message with the TX cipher
(advancing it), base64-encode, and write the result plus CRLF.  The wire
line written is returned alongside the new state. -/
def send_encrypted_message (st : SessionState) (message : String) :
    Except OVMSError (SessionState × String) :=
  if ¬st.connected ∨ ¬st.writer then
    Except.error (OVMSError.connectionError "Not connected to OVMS server")
  else
    match st.tx_cipher with
    | none =>
      Except.error (OVMSError.connectionError "Not authenticated - no TX cipher")
    | some tx =>
      let r := tx.crypt (utf8Encode message)
      Except.ok ({ st with tx_cipher := some r.1 }, b64Encode r.2 ++ "\r\n")

/-- `send_command` (lines 886–920): raise `OVMSConnectionError` when not
connected, raise `OVMSConnectionError("Not authenticated with OVMS
server")` when not authenticated or without a TX cipher — the repository
defines no separate not-authenticated exception class — otherwise clear the
previous command response and event and send `"MP-0 C" + command`
encrypted.  On error nothing is written: the wire line exists only in the
`ok` result. -/
def send_command (st : SessionState) (command : String) :
    Except OVMSError (SessionState × String) :=
  if ¬st.connected ∨ ¬st.writer then
    Except.error (OVMSError.connectionError "Not connected to OVMS server")
  else if ¬st.authenticated ∨ st.tx_cipher = none then
    Except.error (OVMSError.connectionError "Not authenticated with OVMS server")
  else
    send_encrypted_message
      { st with command_event := false, command_response := none }
      ("MP-0 C" ++ command)

/-! ## The dispatcher (`_background_reader_loop`) and the response wait -/

/-- One iteration of `_background_reader_loop` for an already stripped,
non-empty line.  Returns the new session state and whether the loop
continues; a missing RX cipher makes the loop break.  The line is base64
decoded and run through the RX cipher (advancing it) before the `MP-0 `
preamble check; a non-matching line is skipped with no further state
change.  Matching lines dispatch on the type tag: `c` stores the parsed
command response and sets the completion event, `F` and `D` merge into
`protocol_data`, every other tag only logs. -/
def processLine (st : SessionState) (response : String) : SessionState × Bool :=
  match st.rx_cipher with
  | none => (st, false)
  | some rx =>
    let r := rx.crypt (b64Decode response)
    let decrypted : String := ⟨utf8DecodeReplace r.2⟩
    let st1 := { st with rx_cipher := some r.1 }
    if pyStartsWith decrypted "MP-0 " then
      let msg_type : String := ⟨(decrypted.data.drop 5).take 1⟩
      let payload : String := ⟨decrypted.data.drop 6⟩
      if msg_type = "c" then
        ({ st1 with
            command_response := some (handle_command_response payload)
            command_event := true }, true)
      else if msg_type = "F" then
        ({ st1 with
            protocol_data := parse_firmware_message payload st1.protocol_data },
         true)
      else if msg_type = "D" then
        ({ st1 with
            protocol_data := parse_environment_message payload st1.protocol_data },
         true)
      else (st1, true)
    else (st1, true)

/-- `wait_for_command_response`, modelled over the window of `c`-message
payloads the dispatcher delivers between the start of the wait and the
timeout.  The method first clears the completion event and the stored
response — discarding anything delivered before the wait began — and then
suspends until the event is set.  An empty window means the event is never
set before the timeout elapses, so the result is `none`; a non-empty
window wakes the single waiter at its first delivery, which returns the
response `_handle_command_response` stored. -/
def wait_for_command_response (st : SessionState) (window : List String) :
    SessionState × Option CmdResponse :=
  let st1 := { st with command_event := false, command_response := none }
  match window with
  | [] => (st1, none)
  | p :: _ =>
    let r := handle_command_response p
    ({ st1 with command_response := some r, command_event := true }, some r)

/-- An `Except` result is a success. -/
def isOkE {α : Type} (e : Except OVMSError α) : Bool :=
  match e with
  | .ok _ => true
  | .error _ => false

/-! ## Supporting lemmas -/

/-- The state reached after `crypt` depends only on the input length, not on
the input bytes: the loop body updates `x`, `y`, `state` before looking at
the data byte. -/
theorem crypt_state_eq_of_length_eq (c : RC4) (d₁ d₂ : List Nat)
    (h : d₁.length = d₂.length) : (c.crypt d₁).1 = (c.crypt d₂).1 := by
  induction d₁ generalizing c d₂ with
  | nil => cases d₂ with
    | nil => rfl
    | cons b r => simp at h
  | cons b r ih => cases d₂ with
    | nil => simp at h
    | cons b₂ r₂ =>
      simp only [List.length_cons, Nat.succ.injEq] at h
      simp only [RC4.crypt]
      exact ih _ _ h

/-- `crypt` output has the same length as its input. -/
theorem crypt_length (c : RC4) (d : List Nat) :
    (c.crypt d).2.length = d.length := by
  induction d generalizing c with
  | nil => rfl
  | cons b r ih => simp [RC4.crypt, ih]

/-- RC4 is an involution from any common starting state: encrypting, then
decrypting with an equal state, returns the plaintext.  The keystream bytes
produced from equal states coincide, and XOR is self-inverse. -/
theorem crypt_crypt (c : RC4) (m : List Nat) :
    (c.crypt ((c.crypt m).2)).2 = m := by
  induction m generalizing c with
  | nil => rfl
  | cons b r ih =>
    simp only [RC4.crypt]
    rw [Nat.xor_assoc, Nat.xor_self, Nat.xor_zero, ih (rc4Next c).1]

/-- A cancelled task attribute never holds a running task. -/
theorem cancelTask_ne_some_true (t : Option Bool) : cancelTask t ≠ some true := by
  rcases t with _ | b
  · simp [cancelTask]
  · cases b <;> simp [cancelTask]

/-- Cancelling twice is the same as cancelling once. -/
theorem cancelTask_idem (t : Option Bool) :
    cancelTask (cancelTask t) = cancelTask t := by
  rcases t with _ | b
  · rfl
  · cases b <;> rfl

/-- `int("")` fails. -/
theorem pyInt_empty : pyInt "" = none := rfl

/-! ## Claims -/

/-- Claim C1: for every non-empty key `k` and every byte string `m`, two RC4
cipher states each freshly initialized from `k` and each independently
primed by encrypting 1024 zero bytes (output discarded) give an
encrypt-then-decrypt round trip: `crypt` with the second primed state
applied to the output of `crypt` with the first primed state on `m`
returns `m`. -/
theorem C1_rc4_roundtrip (key : List Nat) (hkey : key ≠ []) (m : List Nat) :
    (((RC4.init key).crypt (List.replicate 1024 0)).1.crypt
      ((((RC4.init key).crypt (List.replicate 1024 0)).1.crypt m).2)).2 = m :=
  crypt_crypt _ m

/-- Witness for C1 at the concrete key `[1]` and message `[77, 80]`. -/
theorem C1_rc4_roundtrip_witness :
    ([1] : List Nat) ≠ [] ∧
    (((RC4.init [1]).crypt (List.replicate 1024 0)).1.crypt
      ((((RC4.init [1]).crypt (List.replicate 1024 0)).1.crypt [77, 80]).2)).2 =
      [77, 80] :=
  ⟨by decide, C1_rc4_roundtrip [1] (by decide) [77, 80]⟩

/-- Claim C2 as stated is false on the code: in the payload
`"v3.2.1,1FADP3,-70,1,Tesla,,,,,ESP32-v1,,4G"` the field at index 8 is
empty and `"ESP32-v1"` sits at index 9, so the parser extracts no
`m_hardware` at all and stores `"ESP32-v1"` — not `"4G"` — as the modem
mode. -/
theorem C2_counterexample :
    (firmwareData "v3.2.1,1FADP3,-70,1,Tesla,,,,,ESP32-v1,,4G").lookup
        "m_hardware" = none ∧
    (firmwareData "v3.2.1,1FADP3,-70,1,Tesla,,,,,ESP32-v1,,4G").lookup
        "m_mdm_mode" ≠ some (PVal.str "4G") := by
  constructor
  · rfl
  · decide

/-- Claim C2 (amended): parsing that F payload extracts firmware
`"v3.2.1"` (index 0), VIN `"1FADP3"` (index 1), signal `-70` (index 2,
fraction truncated), car type `"Tesla"` (index 4) and modem mode
`"ESP32-v1"` (index 9); index 8 is empty so no hardware version is
extracted and `"4G"` (index 11) is never read.  Exactly the non-empty
extracted fields are merged into `protocol_data`. -/
theorem C2_firmware_parse :
    firmwareData "v3.2.1,1FADP3,-70,1,Tesla,,,,,ESP32-v1,,4G" =
      [("m_firmware", PVal.str "v3.2.1"), ("car_vin", PVal.str "1FADP3"),
       ("car_gsm_signal", PVal.int (-70)), ("car_type", PVal.str "Tesla"),
       ("m_mdm_mode", PVal.str "ESP32-v1")] ∧
    parse_firmware_message "v3.2.1,1FADP3,-70,1,Tesla,,,,,ESP32-v1,,4G" [] =
      [("m_firmware", PVal.str "v3.2.1"), ("car_vin", PVal.str "1FADP3"),
       ("car_gsm_signal", PVal.int (-70)), ("car_type", PVal.str "Tesla"),
       ("m_mdm_mode", PVal.str "ESP32-v1")] := by
  constructor <;> rfl

/-- Claim C3: the command-response payload parser splits on comma into at
most 3 parts; the code is an integer exactly when the first part is a
digit string (and likewise the result with the second part), otherwise
null; and the three example payloads parse as the spec states, with no
exception possible (the parser is a total function). -/
theorem C3_command_response_parse :
    (∀ payload : String, (splitOnComma2 payload).length ≤ 3) ∧
    (∀ payload : String,
      ((handle_command_response payload).code ≠ none ↔
        0 < (splitOnComma2 payload).length ∧
          pyIsDigit ((splitOnComma2 payload).getD 0 ""))) ∧
    (∀ payload : String,
      ((handle_command_response payload).result ≠ none ↔
        1 < (splitOnComma2 payload).length ∧
          pyIsDigit ((splitOnComma2 payload).getD 1 ""))) ∧
    handle_command_response "26,0,OK" =
      { code := some 26, result := some 0, message := "OK" } ∧
    handle_command_response "5,2" =
      { code := some 5, result := some 2, message := "" } ∧
    handle_command_response "x,y" =
      { code := none, result := none, message := "" } := by
  refine ⟨fun payload => ?_, fun payload => ?_, fun payload => ?_,
    by decide, by decide, by decide⟩
  · unfold splitOnComma2
    rcases pySplitComma payload with _ | ⟨a, _ | ⟨b, _ | ⟨c, rest⟩⟩⟩ <;> simp
  · by_cases h : 0 < (splitOnComma2 payload).length ∧
        pyIsDigit ((splitOnComma2 payload).getD 0 "") = true <;>
      simp [handle_command_response, h]
  · by_cases h : 1 < (splitOnComma2 payload).length ∧
        pyIsDigit ((splitOnComma2 payload).getD 1 "") = true <;>
      simp [handle_command_response, h]

/-- Claim C4: a server handshake response line is accepted exactly when
splitting it on whitespace yields at least 4 tokens whose first is
`"MP-A"` or `"MP-S"` and whose second is the literal `"0"`; every line
failing any of the three conditions raises the connection-class error
(`OVMSConnectionError`, a fatal handshake failure). -/
theorem C4_handshake_validation (line : String) :
    (isOkE (parseHandshakeResponse line) = true ↔
      4 ≤ (pySplitWS line).length ∧
      ((pySplitWS line).getD 0 "" = "MP-A" ∨ (pySplitWS line).getD 0 "" = "MP-S") ∧
      (pySplitWS line).getD 1 "" = "0") ∧
    (isOkE (parseHandshakeResponse line) = false →
      parseHandshakeResponse line =
        Except.error (OVMSError.connectionError
          ("Invalid server response format: " ++ line))) := by
  by_cases h : (pySplitWS line).length < 4 ∨
      ((pySplitWS line).getD 0 "" ≠ "MP-A" ∧ (pySplitWS line).getD 0 "" ≠ "MP-S") ∨
      (pySplitWS line).getD 1 "" ≠ "0"
  · have hok : parseHandshakeResponse line =
        Except.error (OVMSError.connectionError
          ("Invalid server response format: " ++ line)) := by
      unfold parseHandshakeResponse
      exact if_pos h
    refine ⟨?_, fun _ => hok⟩
    rw [hok]
    simp only [isOkE, Bool.false_eq_true, false_iff]
    rintro ⟨h1, h2, h3⟩
    rcases h with h | ⟨ha, hb⟩ | hc
    · omega
    · rcases h2 with h2 | h2
      · exact ha h2
      · exact hb h2
    · exact hc h3
  · rcases not_or.mp h with ⟨hlen, h2⟩
    rcases not_or.mp h2 with ⟨hname, hzero⟩
    have hok : parseHandshakeResponse line =
        Except.ok ((pySplitWS line).getD 2 "", (pySplitWS line).getD 3 "") := by
      unfold parseHandshakeResponse
      exact if_neg h
    refine ⟨?_, ?_⟩
    · rw [hok]
      simp only [isOkE, true_iff]
      refine ⟨by omega, ?_, not_not.mp hzero⟩
      rcases not_and_or.mp hname with hA | hS
      · exact Or.inl (not_not.mp hA)
      · exact Or.inr (not_not.mp hS)
    · intro hfalse
      rw [hok] at hfalse
      simp [isOkE] at hfalse

/-- Witness for C4 at the rejected line `"MP-X 0 tok dig"` (wrong
preamble). -/
theorem C4_handshake_validation_witness :
    parseHandshakeResponse "MP-X 0 tok dig" =
      Except.error (OVMSError.connectionError
        ("Invalid server response format: " ++ "MP-X 0 tok dig")) :=
  (C4_handshake_validation "MP-X 0 tok dig").2 (by decide)

/-- Claim C5: for every handshake whose validated response carries a server
digest different from `base64(HMAC_MD5(secret, serverToken))`, the
handshake logs the mismatch but does not abort — key derivation, cipher
construction and priming still run, and the outcome is authenticated and
identical to the matching-digest outcome except for the logged warning. -/
theorem C5_soft_digest_mismatch
    (password client_token server_token server_digest : String)
    (h : server_digest ≠ expectedServerDigest password server_token) :
    (finishHandshake password client_token server_token server_digest).digestWarning
        = true ∧
    (finishHandshake password client_token server_token server_digest).authenticated
        = true ∧
    (finishHandshake password client_token server_token server_digest).tx_cipher =
      (finishHandshake password client_token server_token
        (expectedServerDigest password server_token)).tx_cipher ∧
    (finishHandshake password client_token server_token server_digest).rx_cipher =
      (finishHandshake password client_token server_token
        (expectedServerDigest password server_token)).rx_cipher ∧
    (finishHandshake password client_token server_token
      (expectedServerDigest password server_token)).digestWarning = false := by
  exact ⟨decide_eq_true h, rfl, rfl, rfl, decide_eq_false (fun hne => hne rfl)⟩

/-- Witness for C5: the empty digest is not the expected digest for secret
`"secret"` and server token `"STOKEN"`, and the handshake still
authenticates. -/
theorem C5_soft_digest_mismatch_witness :
    "" ≠ expectedServerDigest "secret" "STOKEN" ∧
    (finishHandshake "secret" "CTOKEN" "STOKEN" "").digestWarning = true ∧
    (finishHandshake "secret" "CTOKEN" "STOKEN" "").authenticated = true := by
  have h : "" ≠ expectedServerDigest "secret" "STOKEN" := by decide
  have hm := C5_soft_digest_mismatch "secret" "CTOKEN" "STOKEN" "" h
  exact ⟨h, hm.1, hm.2.1⟩

/-- Claim C6 as stated is false on the code: the repository defines no
`NotAuthenticatedError` class; sending while connected but unauthenticated
raises `OVMSConnectionError` — the connection-level class itself, not a
distinct one — with message `"Not authenticated with OVMS server"`.  (The
model returns `error`, so no wire line is produced: nothing is sent.) -/
theorem C6_counterexample :
    send_command
      { connected := true, authenticated := false, writer := true,
        tx_cipher := none, rx_cipher := none, reader_task := none,
        ping_task := none, command_response := none, command_event := false,
        protocol_data := [] } "26,1" =
      Except.error
        (OVMSError.connectionError "Not authenticated with OVMS server") := by
  rfl

/-- Claim C6 (amended): attempting to send a command on a connected session
before the handshake completes (not authenticated, or no TX cipher) raises
`OVMSConnectionError` with message `"Not authenticated with OVMS server"`
— the same connection-level error class, as no distinct
`NotAuthenticatedError` exists in the repository — and sends nothing on
the socket. -/
theorem C6_unauthenticated_send (st : SessionState) (command : String)
    (hconn : st.connected = true) (hw : st.writer = true)
    (hauth : st.authenticated = false ∨ st.tx_cipher = none) :
    send_command st command =
      Except.error
        (OVMSError.connectionError "Not authenticated with OVMS server") := by
  have h1 : ¬(¬st.connected = true ∨ ¬st.writer = true) := by simp [hconn, hw]
  have h2 : ¬st.authenticated = true ∨ st.tx_cipher = none := by
    rcases hauth with h | h
    · exact Or.inl (by simp [h])
    · exact Or.inr h
  unfold send_command
  rw [if_neg h1, if_pos h2]

/-- Witness for C6 at a connected session that is authenticated-flagged but
has no TX cipher. -/
theorem C6_unauthenticated_send_witness :
    send_command
      { connected := true, authenticated := true, writer := true,
        tx_cipher := none, rx_cipher := none, reader_task := none,
        ping_task := none, command_response := none, command_event := false,
        protocol_data := [] } "26,1" =
      Except.error
        (OVMSError.connectionError "Not authenticated with OVMS server") :=
  C6_unauthenticated_send _ "26,1" rfl rfl (Or.inr rfl)

/-- Claim C7: a line whose decrypted text does not begin with `"MP-0 "` is
still base64-decoded and run through the RX cipher — advancing it by the
decoded byte length exactly as for a matching line — and is then skipped
with no other state change: same `protocol_data`, command response, event
and status flags, and the reader loop continues. -/
theorem C7_skip_line_only_advances_rx (st : SessionState) (rx : RC4)
    (line : String) (hrx : st.rx_cipher = some rx)
    (hskip : pyStartsWith ⟨utf8DecodeReplace (rx.crypt (b64Decode line)).2⟩
        "MP-0 " = false) :
    processLine st line =
      ({ st with rx_cipher := some (rx.crypt (b64Decode line)).1 }, true) := by
  unfold processLine
  rw [hrx]
  simp [hskip]

/-- Witness for C7: the empty line decodes to no bytes, whose decrypt does
not start with `"MP-0 "`, and only the RX cipher field is touched. -/
theorem C7_skip_line_only_advances_rx_witness :
    processLine
      { connected := true, authenticated := true, writer := true,
        tx_cipher := none, rx_cipher := some ⟨List.range 256, 0, 0⟩,
        reader_task := none, ping_task := none, command_response := none,
        command_event := false, protocol_data := [] } "" =
      ({ connected := true, authenticated := true, writer := true,
         tx_cipher := none,
         rx_cipher := some ((⟨List.range 256, 0, 0⟩ : RC4).crypt (b64Decode "")).1,
         reader_task := none, ping_task := none, command_response := none,
         command_event := false, protocol_data := [] }, true) :=
  C7_skip_line_only_advances_rx _ _ "" rfl (by decide)

/-- Claim C8: `disconnect` leaves the session disconnected and
unauthenticated with both ciphers and the pending command response
cleared and no background loop running, and it is idempotent: a second
call changes nothing. -/
theorem C8_disconnect_idempotent (st : SessionState) :
    (disconnect st).connected = false ∧
    (disconnect st).authenticated = false ∧
    (disconnect st).tx_cipher = none ∧
    (disconnect st).rx_cipher = none ∧
    (disconnect st).command_response = none ∧
    (disconnect st).command_event = false ∧
    (disconnect st).reader_task ≠ some true ∧
    (disconnect st).ping_task ≠ some true ∧
    disconnect (disconnect st) = disconnect st := by
  refine ⟨rfl, rfl, rfl, rfl, rfl, rfl,
    cancelTask_ne_some_true st.reader_task,
    cancelTask_ne_some_true st.ping_task, ?_⟩
  simp [disconnect, cancelTask_idem]

/-- Claim C9: the D-message parser sets the climate flag `"hvac"` to
whether bit `0x80` is set in the integer at field index 17 (so `"128"`
sets it true and `"0"` sets it false), and leaves `protocol_data`
untouched when there are fewer than 18 fields or the field is empty or
fails integer parsing. -/
theorem C9_environment_parse (pd : List (String × PVal)) (payload : String) :
    ((pySplitComma payload).length ≤ 17 →
      parse_environment_message payload pd = pd) ∧
    ((pySplitComma payload).getD 17 "" = "" →
      parse_environment_message payload pd = pd) ∧
    (pyInt ((pySplitComma payload).getD 17 "") = none →
      parse_environment_message payload pd = pd) ∧
    (∀ n : Int, 17 < (pySplitComma payload).length →
      pyInt ((pySplitComma payload).getD 17 "") = some n →
      parse_environment_message payload pd =
        assocSet pd "hvac" (PVal.bool (Int.land n 128 ≠ 0))) ∧
    parse_environment_message "0,0,0,0,0,0,0,0,0,0,0,0,0,0,0,0,0,128" [] =
      [("hvac", PVal.bool true)] ∧
    parse_environment_message "0,0,0,0,0,0,0,0,0,0,0,0,0,0,0,0,0,0"
        [("hvac", PVal.bool true)] = [("hvac", PVal.bool false)] := by
  refine ⟨?_, ?_, ?_, ?_, by decide, by decide⟩
  · intro h
    have hc : ¬(17 < (pySplitComma payload).length ∧
        (pySplitComma payload).getD 17 "" ≠ "") := by
      rintro ⟨h1, _⟩; omega
    simp only [parse_environment_message]
    exact if_neg hc
  · intro h
    have hc : ¬(17 < (pySplitComma payload).length ∧
        (pySplitComma payload).getD 17 "" ≠ "") := by
      rintro ⟨_, h2⟩; exact h2 h
    simp only [parse_environment_message]
    exact if_neg hc
  · intro h
    by_cases hc : 17 < (pySplitComma payload).length ∧
        (pySplitComma payload).getD 17 "" ≠ ""
    · simp only [parse_environment_message]
      rw [if_pos hc, h]
    · simp only [parse_environment_message]
      exact if_neg hc
  · intro n hlen hsome
    have hne : (pySplitComma payload).getD 17 "" ≠ "" := by
      intro he
      rw [he, pyInt_empty] at hsome
      exact Option.noConfusion hsome
    simp only [parse_environment_message]
    rw [if_pos ⟨hlen, hne⟩, hsome]

/-- Witness for C9 at an 18-field payload whose last field is `"128"`. -/
theorem C9_environment_parse_witness :
    17 < (pySplitComma "0,0,0,0,0,0,0,0,0,0,0,0,0,0,0,0,0,128").length ∧
    pyInt ((pySplitComma "0,0,0,0,0,0,0,0,0,0,0,0,0,0,0,0,0,128").getD 17 "")
      = some 128 ∧
    parse_environment_message "0,0,0,0,0,0,0,0,0,0,0,0,0,0,0,0,0,128" [] =
      assocSet [] "hvac" (PVal.bool (Int.land 128 128 ≠ 0)) :=
  ⟨by decide, by decide,
    (C9_environment_parse [] "0,0,0,0,0,0,0,0,0,0,0,0,0,0,0,0,0,128").2.2.2.1
      128 (by decide) (by decide)⟩

/-- Claim C10: `wait_for_command_response` clears the stored response and
its completion event on entry, before waiting — so a response delivered
before the wait begins (present in the entry state) is discarded, and with
no delivery during the wait the call returns the timeout indicator `none`;
only a response delivered after the wait begins is returned. -/
theorem C10_wait_discards_predelivered (st : SessionState) (r : CmdResponse)
    (hresp : st.command_response = some r) (hev : st.command_event = true) :
    (wait_for_command_response st []).2 = none ∧
    (wait_for_command_response st []).1.command_response = none ∧
    (wait_for_command_response st []).1.command_event = false ∧
    (∀ p window, (wait_for_command_response st (p :: window)).2 =
      some (handle_command_response p)) :=
  ⟨rfl, rfl, rfl, fun _ _ => rfl⟩

/-- Witness for C10 at a session that already holds a delivered response. -/
theorem C10_wait_discards_predelivered_witness :
    (wait_for_command_response
      { connected := true, authenticated := true, writer := true,
        tx_cipher := none, rx_cipher := none, reader_task := none,
        ping_task := none,
        command_response := some { code := some 26, result := some 0, message := "OK" },
        command_event := true, protocol_data := [] } []).2 = none :=
  (C10_wait_discards_predelivered _
    { code := some 26, result := some 0, message := "OK" } rfl rfl).1

end OVMS
